import Mathlib

/-!
# Verification of the pyUnfoldedCircleRemote client

Shallow embedding of `src/pyUnfoldedCircleRemote/remote.py` (the `Remote`
and `Activity` classes) together with the parts of the Python standard
library the embedded code calls (`urllib.parse.urlparse`).

Conventions of the embedding:
* Python exceptions are modelled by the `PyError` inductive; a Python
  function that may raise returns `Except PyError α`.
* Python `None` and dynamically typed JSON values are modelled by the
  `Json` inductive (`Json.null` is `None`).
* The network is modelled by passing the HTTP response a call would
  receive as an explicit `Response` argument; an operation returns the
  list of HTTP requests it issued (its request trace) paired with its
  `Except` result, so that "issues no request" is expressible.
* `aiohttp`'s `response.ok` is `status < 400`.
-/

namespace PyUC

/-- Python exceptions raised (directly or indirectly) by the embedded code.
The first six constructors are the exception classes defined in
`remote.py`; the remaining ones are built-in Python exceptions that the
code can raise (`ValueError` from `urlparse`, `IndexError` from
`self._docks[0]`, `KeyError` from `d[k]`, `TypeError`/`AttributeError`
from operations on values of the wrong type such as `None`). -/
inductive PyError where
  | httpError (status : Nat) (message : String)
  | authenticationError (message : String)
  | systemCommandNotFound (message : String)
  | invalidIRFormat (message : String)
  | noEmitterFound (message : String)
  | apiKeyNotFound (name : String) (message : String)
  | valueError (message : String)
  | indexError
  | keyError
  | typeError
  | attributeError
  deriving Repr, DecidableEq

/-- Dynamically typed JSON / Python value. `Json.null` models Python `None`. -/
inductive Json where
  | null
  | str (s : String)
  | num (n : Int)
  | bool (b : Bool)
  | arr (elems : List Json)
  | obj (fields : List (String × Json))

/-- Python `d.get(k)`: `None` when the key is absent (no exception). -/
def Json.get : Json → String → Json
  | .obj fields, k => match fields.lookup k with
    | some v => v
    | none => .null
  | _, _ => .null

/-- Python `d[k]`: raises `KeyError` when the key is absent and
`TypeError` when the value is not a dict. -/
def Json.index : Json → String → Except PyError Json
  | .obj fields, k => match fields.lookup k with
    | some v => .ok v
    | none => .error .keyError
  | _, _ => .error .typeError

/-- Right-biased merge of two JSON objects' field lists, as performed by
Python's `{**a, **b}` (keys of `b` override keys of `a`). -/
def mergeFields (a b : List (String × Json)) : List (String × Json) :=
  a.filter (fun p => (b.lookup p.1).isNone) ++ b

/-! ## Model of `urllib.parse.urlparse`

Translated from CPython's `urllib.parse.urlsplit` restricted to the three
components the client reads (`scheme`, `netloc`, `path`): the
tab/CR/LF removal, the scheme split (first `:` with a leading ASCII
letter and scheme characters before it), the `//`-netloc split stopped at
the first of `/?#`, the unbalanced-bracket `ValueError` ("Invalid
IPv6 URL"), and the `_checknetloc` NFKC validation (see `checknetloc`).
Not modelled: query/fragment extraction beyond cutting them
off the path, the `;`-params split of `urlparse` (never raises, and no
input considered contains `;`), and the additional bracketed-host
validation of newer CPython (it only concerns netlocs containing `[`). -/

/-- CPython `scheme_chars`: ASCII alphanumerics and `+-.`. -/
def isSchemeChar (c : Char) : Bool :=
  c.isAlpha || c.isDigit || c == '+' || c == '-' || c == '.'

/-- The scheme split of `urlsplit`: if the input has a `:` at position
`i > 0`, everything before it is made of scheme characters and the first
character is an ASCII letter, return the lowercased scheme and the
remainder after the `:`; otherwise no scheme. -/
def splitScheme (url : List Char) : List Char × List Char :=
  let pre := url.takeWhile (fun c => c != ':')
  if pre.length < url.length && 0 < pre.length && pre.all isSchemeChar
      && (url.head?.elim false Char.isAlpha) then
    (pre.map Char.toLower, url.drop (pre.length + 1))
  else
    ([], url)

/-- CPython `_checknetloc`: returns immediately when the netloc is empty
or all-ASCII; otherwise raises
`ValueError("netloc '...' contains invalid characters under NFKC
normalization")` when NFKC normalization alters the netloc (with `@:#?`
removed) and the normalized form contains one of `/?#@:` (e.g. netloc
`"℀"`, whose NFKC form is `"a/c"`).  Full NFKC is not modelled: the model
is exact for ASCII netlocs (where CPython returns without normalizing)
and conservatively maps every non-ASCII netloc to the `ValueError`,
over-approximating CPython, which accepts non-ASCII netlocs whose NFKC
form introduces no separator.  Every theorem below that quantifies over
inputs stays within the all-ASCII fragment, where the model is exact. -/
def checknetloc (netloc : List Char) : Except PyError Unit :=
  if netloc.all (fun c => c.toNat < 128) then .ok ()
  else .error (.valueError ("netloc '" ++ String.mk netloc
    ++ "' contains invalid characters under NFKC normalization"))

/-- Result of `urlsplit` restricted to the fields the client reads. -/
structure SplitResult where
  scheme : List Char
  netloc : List Char
  path : List Char
  deriving Repr, DecidableEq

/-- `urllib.parse.urlsplit` (see the section comment above). -/
def urlsplit (url0 : List Char) : Except PyError SplitResult :=
  let url := url0.filter (fun c => c != '\t' && c != '\r' && c != '\n')
  let sp := splitScheme url
  let scheme := sp.1
  let rest := sp.2
  if rest.take 2 = ['/', '/'] then
    let netloc := (rest.drop 2).takeWhile (fun c => c != '/' && c != '?' && c != '#')
    let rest2 := (rest.drop 2).dropWhile (fun c => c != '/' && c != '?' && c != '#')
    if ('[' ∈ netloc ∧ ']' ∉ netloc) ∨ (']' ∈ netloc ∧ '[' ∉ netloc) then
      .error (.valueError "Invalid IPv6 URL")
    else
      match checknetloc netloc with
      | .error e => .error e
      | .ok _ =>
        .ok ⟨scheme, netloc, rest2.takeWhile (fun c => c != '?' && c != '#')⟩
  else
    -- CPython calls `_checknetloc` on the empty netloc too; it returns
    -- immediately, so the call is omitted here.
    .ok ⟨scheme, [], rest.takeWhile (fun c => c != '?' && c != '#')⟩

/-- `Remote.validate_url`, translated from `remote.py`:
`re.search("^http.*", uri)` matches iff `uri` starts with `"http"`;
then `urlparse`, the empty-scheme re-prefix, and the three path cases. -/
def validate_url (uri0 : String) : Except PyError String :=
  let uri := if "http".data.isPrefixOf uri0.data then uri0.data
             else "http://".data ++ uri0.data
  match urlsplit uri with
  | .error e => .error e
  | .ok parsed_url =>
    let uri := if parsed_url.scheme = [] then "http://".data ++ uri else uri
    if parsed_url.path = ['/'] then
      .ok ⟨uri ++ "api/".data⟩
    else if parsed_url.path = [] then
      .ok ⟨uri ++ "/api/".data⟩
    else if parsed_url.path.getLast? ≠ some '/' then
      .ok ⟨uri ++ ['/']⟩
    else
      .ok ⟨uri⟩

/-! ## HTTP model

A `Response` is the (mocked) HTTP response an operation would receive,
passed explicitly.  Operations return the list of `Request`s they issued
paired with their result. -/

/-- HTTP methods used by the client. -/
inductive Method where
  | get | post | put | delete | head
  deriving Repr, DecidableEq

/-- One HTTP request as issued by the client: method, full URL, optional
JSON body (the `json=` argument of the `aiohttp` call). -/
structure Request where
  method : Method
  path : String
  body : Option Json

/-- The (mocked) HTTP response to a request: status code and decoded JSON
body (the value `await response.json()` would produce). -/
structure Response where
  status : Nat
  body : Json

/-- `aiohttp`'s `response.ok`: true iff `status < 400`. -/
def Response.ok (response : Response) : Bool := response.status < 400

/-- Python `==` between a decoded JSON value and a `str` operand: true iff
the value is that string (no other JSON value compares equal to a string). -/
def Json.eqStr : Json → String → Bool
  | .str s, t => s == t
  | _, _ => false

/-- Python `==` between a decoded JSON value and an `int` operand
(`bool` is an `int` subtype in Python, so `True == 1`). -/
def Json.eqNat : Json → Nat → Bool
  | .num n, m => n == (m : Int)
  | .bool b, m => (if b then (1 : Int) else 0) == (m : Int)
  | _, _ => false

/-- `str(v)` as used by the f-string in `raise_on_error`; containers are
rendered approximately (no claim inspects an error message built from a
container). -/
def str_of_json : Json → String
  | .null => "None"
  | .str s => s
  | .num n => toString n
  | .bool b => if b then "True" else "False"
  | .arr _ => "[...]"
  | .obj _ => "{...}"

/-- `Remote.raise_on_error`: on a non-ok response, read `content['code']`
and `content['message']` from the JSON error body (each subscript may
raise `KeyError`) and raise `HTTPError(status, msg)`. -/
def raise_on_error (response : Response) : Except PyError Response :=
  if response.ok then .ok response
  else
    match response.body.index "code" with
    | .error e => .error e
    | .ok c =>
      match response.body.index "message" with
      | .error e => .error e
      | .ok m =>
        .error (.httpError response.status
          (toString response.status ++ " Request: " ++ str_of_json c
            ++ " Reason: " ++ str_of_json m))

/-! ## The `Remote` session object

Only the fields the verified operations touch are modelled.  `apikey` and
`pin` are `Option String` (`none` is Python `None`); Python truthiness
makes `""` behave like `None` in `client()`. -/

/-- An entry of `self._docks` as built by `get_docks`:
`{"name": dock.get("name"), "device_id": dock.get("device_id")}`. -/
structure DockEntry where
  name : Option String
  device_id : Option String
  deriving Repr, DecidableEq

/-- An entry of `self._ir_codesets` as built by `get_remote_codesets`:
`{"name": remote.get("name"), "device_id": code_set.get("id")}`. -/
structure CodesetEntry where
  name : Option String
  device_id : Option String
  deriving Repr, DecidableEq

/-- The `Remote` session state used by the verified operations.
`endpoint` is the validated base URL (ends in `/`). -/
structure Remote where
  endpoint : String
  apikey : Option String
  pin : Option String
  _docks : List DockEntry
  _ir_codesets : List CodesetEntry

def AUTH_APIKEY_NAME : String := "pyUnfoldedCircle"

def AUTH_USERNAME : String := "web-configurator"

/-- Python truthiness of an optional string: `None` and `""` are falsy. -/
def truthy : Option String → Bool
  | none => false
  | some s => s != ""

/-- The authentication configured on an `aiohttp.ClientSession`: either the
`Authorization: Bearer <token>` header or `BasicAuth(username, password)`. -/
inductive Auth where
  | bearer (token : String)
  | basic (username password : String)
  deriving Repr, DecidableEq

/-- An `aiohttp.ClientSession` as configured by `Remote.client`:
authentication plus the total timeout in seconds. -/
structure ClientSession where
  auth : Auth
  timeout : Nat
  deriving Repr, DecidableEq

/-- `Remote.client`: Bearer session (timeout 5) when `self.apikey` is
truthy, basic-auth session (timeout 2) when `self.pin` is truthy,
otherwise the function falls through and returns Python `None`. -/
def Remote.client (r : Remote) : Option ClientSession :=
  if truthy r.apikey then
    some ⟨.bearer (r.apikey.getD ""), 5⟩
  else if truthy r.pin then
    some ⟨.basic AUTH_USERNAME (r.pin.getD ""), 2⟩
  else
    none

/-- `Remote.url`: `urljoin(self.endpoint, path)`.  Modelled as
concatenation, which agrees with `urljoin` for the relative paths this
client passes against a base endpoint ending in `/`. -/
def Remote.url (r : Remote) (path : String) : String := r.endpoint ++ path

/-- `async with self.client() as session: ...` — when `client()` returned
`None`, entering the context manager raises `AttributeError` (`NoneType`
has no `__aenter__`) before any request is made. -/
def Remote.withClient (r : Remote)
    (k : ClientSession → List Request × Except PyError α) :
    List Request × Except PyError α :=
  match r.client with
  | none => ([], .error .attributeError)
  | some s => k s

/-- `Remote.can_connect`: HEAD the `activities` endpoint and return
`status == 200`; `raise_on_error` is not called, so 4xx/5xx do not raise. -/
def Remote.can_connect (r : Remote) (resp : Response) :
    List Request × Except PyError Bool :=
  r.withClient fun _ =>
    ([⟨.head, r.url "activities", none⟩], .ok (resp.status == 200))

/-- `Remote.get_api_keys`: GET `auth/api_keys`, raise on error, return the
decoded body. -/
def Remote.get_api_keys (r : Remote) (resp : Response) :
    List Request × Except PyError Json :=
  r.withClient fun _ =>
    ([⟨.get, r.url "auth/api_keys", none⟩],
     match raise_on_error resp with
     | .error e => .error e
     | .ok _ => .ok resp.body)

/-- `Remote.create_api_key`: POST
`{"name": AUTH_APIKEY_NAME, "scopes": ["admin"]}` to `auth/api_keys`; on
success store `api_info["api_key"]` in `self.apikey` and return
`self.apikey`.  Result is the updated remote paired with the returned
key.  Python would store a non-string field value as is; the model maps
that (unexercised) case to `TypeError`. -/
def Remote.create_api_key (r : Remote) (resp : Response) :
    List Request × Except PyError (Remote × String) :=
  r.withClient fun _ =>
    ([⟨.post, r.url "auth/api_keys",
        some (.obj [("name", .str AUTH_APIKEY_NAME),
                    ("scopes", .arr [.str "admin"])])⟩],
     match raise_on_error resp with
     | .error e => .error e
     | .ok _ =>
       match resp.body.index "api_key" with
       | .error e => .error e
       | .ok (.str k) => .ok ({ r with apikey := some k }, k)
       | .ok _ => .error .typeError)

/-- The `for ... else` search in `revoke_api_key`: the `key_id` of the
first key whose `"name"` equals `key_name`, `none` when the loop falls
through to its `else`; subscripts may raise `KeyError`. -/
def findApiKeyId : List Json → String → Except PyError (Option Json)
  | [], _ => .ok none
  | key :: rest, key_name =>
    match key.index "name" with
    | .error e => .error e
    | .ok n =>
      if n.eqStr key_name then
        match key.index "key_id" with
        | .error e => .error e
        | .ok kid => .ok (some kid)
      else findApiKeyId rest key_name

/-- `Remote.revoke_api_key` (default `key_name` is `AUTH_APIKEY_NAME`):
list keys via `get_api_keys`, search by exact name, raise
`ApiKeyNotFound(key_name, ...)` when absent, otherwise DELETE
`auth/api_keys/<key_id>`.  `listResp`/`deleteResp` are the responses to
the GET and the DELETE. -/
def Remote.revoke_api_key (r : Remote) (key_name : String)
    (listResp deleteResp : Response) : List Request × Except PyError Unit :=
  let gk := r.get_api_keys listResp
  match gk.2 with
  | .error e => (gk.1, .error e)
  | .ok keysJson =>
    match keysJson with
    | .arr keys =>
      match findApiKeyId keys key_name with
      | .error e => (gk.1, .error e)
      | .ok none =>
        (gk.1, .error (.apiKeyNotFound key_name
          ("API Key '" ++ key_name ++ "' not found.")))
      | .ok (some (.str api_key_id)) =>
        match r.client with
        | none => (gk.1, .error .attributeError)
        | some _ =>
          (gk.1 ++ [⟨.delete, r.url ("auth/api_keys/" ++ api_key_id), none⟩],
           match raise_on_error deleteResp with
           | .error e => .error e
           | .ok _ => .ok ())
      | .ok (some _) =>
        -- `"auth/api_keys/" + api_key_id` with a non-string id raises `TypeError`
        (gk.1, .error .typeError)
    | _ =>
      -- `for key in <non-list>` raises `TypeError`
      (gk.1, .error .typeError)

/-- `SYSTEM_COMMANDS` from `remote.py`. -/
def SYSTEM_COMMANDS : List String :=
  ["STANDBY", "REBOOT", "POWER_OFF", "RESTART", "RESTART_UI", "RESTART_CORE"]

/-- `Remote.post_system_command`: when `cmd` is in `SYSTEM_COMMANDS`, POST
`system?cmd=<cmd>`, raise on error and return the decoded body; otherwise
raise `SystemCommandNotFound` without touching the network. -/
def Remote.post_system_command (r : Remote) (cmd : String) (resp : Response) :
    List Request × Except PyError Json :=
  if cmd ∈ SYSTEM_COMMANDS then
    r.withClient fun _ =>
      ([⟨.post, r.url ("system?cmd=" ++ cmd), none⟩],
       match raise_on_error resp with
       | .error e => .error e
       | .ok _ => .ok resp.body)
  else
    ([], .error (.systemCommandNotFound "Invalid System Command Supplied"))

/-- The `for` loop of `get_activity_state`: the `"state"` attribute of
the first entry whose `"entity_id"` equals `entity_id`; falling off the
end of the loop returns Python `None` (`Json.null`). -/
def findActivityState : List Json → String → Except PyError Json
  | [], _ => .ok .null
  | a :: rest, entity_id =>
    match a.index "entity_id" with
    | .error e => .error e
    | .ok eid =>
      if eid.eqStr entity_id then
        match a.index "attributes" with
        | .error e => .error e
        | .ok attrs => attrs.index "state"
      else findActivityState rest entity_id

/-- `Remote.get_activity_state`: GET `activities`, raise on error, then
scan the decoded list for `entity_id` (returning `None` when absent). -/
def Remote.get_activity_state (r : Remote) (entity_id : String)
    (resp : Response) : List Request × Except PyError Json :=
  r.withClient fun _ =>
    ([⟨.get, r.url "activities", none⟩],
     match raise_on_error resp with
     | .error e => .error e
     | .ok _ =>
       match resp.body with
       | .arr items => findActivityState items entity_id
       | _ => .error .typeError)

/-- kwargs of `send_remote_command` (`code`, `format`, `dock`, `port`);
`none` models the keyword being absent from `kwargs`. -/
structure IrKwargs where
  code : Option String
  format : Option String
  dock : Option String
  port : Option String
  deriving Repr, DecidableEq

/-- The Python value `d.get(k)` when the model stores the field as
`Option String`. -/
def jsonOfOptStr : Option String → Json
  | some s => .str s
  | none => .null

/-- `Remote.send_remote_command(device="", command="", repeat=0, **kwargs)`.
Control flow translated from the source:
* `if "code" in kwargs and "format" in kwargs:` builds the raw
  `{"code", "format"}` body, but the *following* `if ... else` either
  overwrites `body` (when `device`/`command` are non-empty) or raises
  `InvalidIRFormat`, so the raw body is dead on every path (see C1);
* the codeset search `next(..., dict)` falls back to the `dict` *type*
  when no name matches, so `ir_code.get("device_id")` raises `TypeError`;
* with a `dock` kwarg whose name matches, `emitter` is the dock *dict*
  and `"ir/emitters/" + emitter` raises `TypeError`;
* with no `dock` kwarg, `self._docks[0]` raises `IndexError` on an empty
  dock list, and `emitter` is the first dock's `device_id` otherwise;
* `emitter is None` raises `NoEmitterFound`;
* finally `async with self.client() ...` (the generic error on a
  credential-less session, before any request) and PUT the
  `{**body, **body_repeat, **body_port}` merge, returning
  `(await response.json()) == 200`. -/
def Remote.send_remote_command (r : Remote) (device command : String)
    (rep : Nat) (kw : IrKwargs) (resp : Response) :
    List Request × Except PyError Bool :=
  if device != "" && command != "" then
    match r._ir_codesets.find? (fun cs => cs.name == some device) with
    | none => ([], .error .typeError)
    | some ir_code =>
      let body := [("codeset_id", jsonOfOptStr ir_code.device_id),
                   ("cmd_id", Json.str command)]
      let body_repeat := if rep > 0 then [("repeat", Json.num rep)] else []
      let body_port := match kw.port with
        | some p => [("port_id", Json.str p)]
        | none => []
      match kw.dock with
      | some dock_name =>
        match r._docks.find? (fun d => d.name == some dock_name) with
        | none =>
          ([], .error (.noEmitterFound
            "No emitter could be found with the supplied criteria"))
        | some _ => ([], .error .typeError)
      | none =>
        match r._docks with
        | [] => ([], .error .indexError)
        | d0 :: _ =>
          match d0.device_id with
          | none =>
            ([], .error (.noEmitterFound
              "No emitter could be found with the supplied criteria"))
          | some emitter =>
            let body_merged := mergeFields (mergeFields body body_repeat) body_port
            match r.client with
            | none => ([], .error .attributeError)
            | some _ =>
              ([⟨.put, r.url ("ir/emitters/" ++ emitter ++ "/send"),
                  some (.obj body_merged)⟩],
               match raise_on_error resp with
               | .error e => .error e
               | .ok _ => .ok (resp.body.eqNat 200))
  else
    ([], .error (.invalidIRFormat "Supply (code and format) or (device and command)"))

/-! ## The `Activity` object

The Python `Activity` holds a back-reference `self._remote`; the model
passes that remote explicitly to each method. -/

/-- `Activity` state: `_name`, `_id` (the `entity_id`) and the dynamic
`_state` value (`activity.get("attributes").get("state")`, possibly
`None`). -/
structure Activity where
  _name : String
  _id : String
  _state : Json

/-- `Activity.is_on`: `self._state == "ON"`. -/
def Activity.is_on (a : Activity) : Bool := a._state.eqStr "ON"

/-- `Activity.turn_on`: PUT `{"entity_id": id, "cmd_id": "activity.on"}`
to `entities/<id>/command`; on success (no raise) set `_state = "ON"`. -/
def Activity.turn_on (a : Activity) (r : Remote) (resp : Response) :
    List Request × Except PyError Activity :=
  let body := Json.obj [("entity_id", .str a._id), ("cmd_id", .str "activity.on")]
  match r.client with
  | none => ([], .error .attributeError)
  | some _ =>
    ([⟨.put, r.url ("entities/" ++ a._id ++ "/command"), some body⟩],
     match raise_on_error resp with
     | .error e => .error e
     | .ok _ => .ok { a with _state := .str "ON" })

/-- `Activity.turn_off`: PUT `{"entity_id": id, "cmd_id": "activity.off"}`
to `entities/<id>/command`; on success (no raise) set `_state = "OFF"`. -/
def Activity.turn_off (a : Activity) (r : Remote) (resp : Response) :
    List Request × Except PyError Activity :=
  let body := Json.obj [("entity_id", .str a._id), ("cmd_id", .str "activity.off")]
  match r.client with
  | none => ([], .error .attributeError)
  | some _ =>
    ([⟨.put, r.url ("entities/" ++ a._id ++ "/command"), some body⟩],
     match raise_on_error resp with
     | .error e => .error e
     | .ok _ => .ok { a with _state := .str "OFF" })

/-- `Activity.update`: `self._state = await self._remote.get_activity_state(self._id)`. -/
def Activity.update (a : Activity) (r : Remote) (resp : Response) :
    List Request × Except PyError Activity :=
  let gs := r.get_activity_state a._id resp
  (gs.1,
   match gs.2 with
   | .error e => .error e
   | .ok st => .ok { a with _state := st })

end PyUC

namespace PyUC

/-! ## Helper predicates on raised exceptions -/

/-- Is this exception an `AuthenticationError`? -/
def isAuthenticationErrorExc : PyError → Bool
  | .authenticationError _ => true
  | _ => false

/-- Is this exception an `HTTPError`? -/
def isHTTPErrorExc : PyError → Bool
  | .httpError _ _ => true
  | _ => false

/-- Is this exception a `NoEmitterFound`? -/
def isNoEmitterFoundExc : PyError → Bool
  | .noEmitterFound _ => true
  | _ => false

/-- Does an operation result (trace paired with outcome) raise an
exception satisfying `p`? -/
def raises (res : List Request × Except PyError α) (p : PyError → Bool) : Bool :=
  match res.2 with
  | .error e => p e
  | .ok _ => false

/-! ## Claim theorems -/

/-- C1: `Remote.send_remote_command` is claimed to raise `InvalidIRFormat`
iff neither a `code`+`format` pair nor a non-empty `device`+`command` pair
is supplied, and in particular to accept a raw `code`+`format` pair alone.
The code violates this: with `code="0x20DF10EF"`, `format="HEX"` and
`device`/`command` left empty (and a dock with a codeset known, so nothing
else can fail first) the call raises `InvalidIRFormat` and issues no
request — the `else` of the `device`/`command` test fires regardless of
the raw pair, contradicting the function's own error message
"Supply (code and format) or (device and command)". -/
theorem send_remote_command_raw_code_rejected :
    Remote.send_remote_command
      ⟨"http://host/api/", some "KEY", none,
        [⟨some "Dock", some "dock1"⟩], [⟨some "TV", some "cs1"⟩]⟩
      "" "" 0 ⟨some "0x20DF10EF", some "HEX", none, none⟩ ⟨200, .num 200⟩
    = ([], .error (.invalidIRFormat
        "Supply (code and format) or (device and command)")) := rfl

/-- C5: `Remote.post_system_command` raises `SystemCommandNotFound` for
every `cmd` outside `SYSTEM_COMMANDS`, issuing no HTTP request; for every
member of the set, given a client and a 200 response, it issues the POST
and returns the decoded JSON body. -/
theorem post_system_command_spec (r : Remote) (cmd : String) (resp : Response) :
    (cmd ∉ SYSTEM_COMMANDS →
      r.post_system_command cmd resp
        = ([], .error (.systemCommandNotFound "Invalid System Command Supplied")))
  ∧ (cmd ∈ SYSTEM_COMMANDS → r.client.isSome → resp.status = 200 →
      r.post_system_command cmd resp
        = ([⟨.post, r.url ("system?cmd=" ++ cmd), none⟩], .ok resp.body)) := by
  constructor
  · intro h
    simp [Remote.post_system_command, h]
  · intro h hs h200
    obtain ⟨s, hcl⟩ := Option.isSome_iff_exists.mp hs
    simp [Remote.post_system_command, h, Remote.withClient, hcl,
          raise_on_error, Response.ok, h200]

/-- Closed witness for `post_system_command_spec`: "BOGUS" is rejected
without a request, and "STANDBY" with a 200 response returns the body. -/
theorem post_system_command_spec_witness :
    (Remote.post_system_command ⟨"http://host/api/", some "KEY", none, [], []⟩
        "BOGUS" ⟨200, .null⟩
      = ([], .error (.systemCommandNotFound "Invalid System Command Supplied")))
  ∧ (Remote.post_system_command ⟨"http://host/api/", some "KEY", none, [], []⟩
        "STANDBY" ⟨200, .str "standby ok"⟩
      = ([⟨.post, "http://host/api/system?cmd=STANDBY", none⟩],
         .ok (.str "standby ok"))) :=
  ⟨(post_system_command_spec _ "BOGUS" _).1 (by decide),
   (post_system_command_spec ⟨"http://host/api/", some "KEY", none, [], []⟩
      "STANDBY" ⟨200, .str "standby ok"⟩).2 (by decide) rfl rfl⟩

/-- C7: `Activity.turn_on` PUTs exactly
`{"entity_id": id, "cmd_id": "activity.on"}` (and `turn_off`
`"activity.off"`) to `entities/<id>/command`, and on any 2xx response the
trace is that single request (no further read) and the updated activity's
`is_on` is `true` (resp. `false`). -/
theorem turn_on_off_optimistic (a : Activity) (r : Remote) (resp : Response)
    (hs : r.client.isSome) (hlo : 200 ≤ resp.status) (hhi : resp.status < 300) :
    (∃ a', a.turn_on r resp
        = ([⟨.put, r.url ("entities/" ++ a._id ++ "/command"),
              some (.obj [("entity_id", .str a._id),
                          ("cmd_id", .str "activity.on")])⟩], .ok a')
      ∧ a'.is_on = true)
  ∧ (∃ a', a.turn_off r resp
        = ([⟨.put, r.url ("entities/" ++ a._id ++ "/command"),
              some (.obj [("entity_id", .str a._id),
                          ("cmd_id", .str "activity.off")])⟩], .ok a')
      ∧ a'.is_on = false) := by
  obtain ⟨s, hcl⟩ := Option.isSome_iff_exists.mp hs
  have hok : raise_on_error resp = .ok resp := by
    simp [raise_on_error, Response.ok]
    omega
  constructor
  · exact ⟨{ a with _state := .str "ON" },
      by simp [Activity.turn_on, hcl, hok], by simp [Activity.is_on, Json.eqStr]⟩
  · exact ⟨{ a with _state := .str "OFF" },
      by simp [Activity.turn_off, hcl, hok], by simp [Activity.is_on, Json.eqStr]⟩

/-- Closed witness for `turn_on_off_optimistic` at a concrete activity,
session and 200 response. -/
theorem turn_on_off_optimistic_witness :
    ∃ a', Activity.turn_on ⟨"Watch TV", "act1", .str "OFF"⟩
        ⟨"http://host/api/", some "KEY", none, [], []⟩ ⟨200, .null⟩
      = ([⟨.put, "http://host/api/entities/act1/command",
            some (.obj [("entity_id", .str "act1"),
                        ("cmd_id", .str "activity.on")])⟩], .ok a')
      ∧ a'.is_on = true :=
  (turn_on_off_optimistic ⟨"Watch TV", "act1", .str "OFF"⟩
    ⟨"http://host/api/", some "KEY", none, [], []⟩ ⟨200, .null⟩
    (by decide) (by decide) (by decide)).1

/-- C10: on a session with neither a truthy `apikey` nor a truthy `pin`,
`Remote.client` falls through and returns `None`, and every HTTP
operation fails with the generic `AttributeError` from entering
`async with None`, issuing no request — not with `AuthenticationError`
or `HTTPError`.  (For `post_system_command` and `send_remote_command`
the client is only reached once the earlier non-network validation
passes, so those conjuncts carry the hypotheses that get them past it;
on failing validation they raise their validation error before ever
touching the client, with no request either.) -/
theorem no_credential_client_none (r : Remote) (resp : Response)
    (h1 : truthy r.apikey = false) (h2 : truthy r.pin = false) :
    r.client = none
  ∧ r.can_connect resp = ([], .error .attributeError)
  ∧ r.get_api_keys resp = ([], .error .attributeError)
  ∧ r.create_api_key resp = ([], .error .attributeError)
  ∧ (∀ eid, r.get_activity_state eid resp = ([], .error .attributeError))
  ∧ (∀ cmd, cmd ∈ SYSTEM_COMMANDS →
      r.post_system_command cmd resp = ([], .error .attributeError))
  ∧ (∀ key_name listResp deleteResp,
      r.revoke_api_key key_name listResp deleteResp
        = ([], .error .attributeError))
  ∧ (∀ device command rep kw (cs : CodesetEntry) d0 ds emitter,
      device ≠ "" → command ≠ "" →
      r._ir_codesets.find? (fun c => c.name == some device) = some cs →
      kw.dock = none → r._docks = d0 :: ds → d0.device_id = some emitter →
      r.send_remote_command device command rep kw resp
        = ([], .error .attributeError))
  ∧ (∀ a : Activity, a.turn_on r resp = ([], .error .attributeError))
  ∧ (∀ a : Activity, a.turn_off r resp = ([], .error .attributeError))
  ∧ (∀ a : Activity, a.update r resp = ([], .error .attributeError))
  ∧ isAuthenticationErrorExc .attributeError = false
  ∧ isHTTPErrorExc .attributeError = false := by
  have hcl : r.client = none := by
    simp [Remote.client, h1, h2]
  refine ⟨hcl, ?_, ?_, ?_, ?_, ?_, ?_, ?_, ?_, ?_, ?_, rfl, rfl⟩
  · simp [Remote.can_connect, Remote.withClient, hcl]
  · simp [Remote.get_api_keys, Remote.withClient, hcl]
  · simp [Remote.create_api_key, Remote.withClient, hcl]
  · intro eid
    simp [Remote.get_activity_state, Remote.withClient, hcl]
  · intro cmd hmem
    simp [Remote.post_system_command, hmem, Remote.withClient, hcl]
  · intro key_name listResp deleteResp
    simp [Remote.revoke_api_key, Remote.get_api_keys, Remote.withClient, hcl]
  · intro device command rep kw cs d0 ds emitter hd hc hcs hdn hdocks hdid
    have hdc : (device != "" && command != "") = true := by simp [hd, hc]
    simp [Remote.send_remote_command, hdc, hcs, hdn, hdocks, hdid, hcl]
  · intro a
    simp [Activity.turn_on, hcl]
  · intro a
    simp [Activity.turn_off, hcl]
  · intro a
    simp [Activity.update, Remote.get_activity_state, Remote.withClient, hcl]

/-- C2 counterexample: `create_api_key` on a session with no PIN (and no
API key) fails with the generic `AttributeError` from `async with None`,
not with `AuthenticationError`, refuting the claimed error type. -/
theorem create_api_key_no_pin_counterexample :
    Remote.create_api_key ⟨"http://host/api/", none, none, [], []⟩
        ⟨200, .obj [("api_key", .str "K")]⟩
      = ([], .error .attributeError)
  ∧ raises (Remote.create_api_key ⟨"http://host/api/", none, none, [], []⟩
        ⟨200, .obj [("api_key", .str "K")]⟩) isAuthenticationErrorExc
      = false := ⟨rfl, rfl⟩

/-- C2 (amended): `create_api_key` performs no credential-precondition
check and never raises `AuthenticationError`: with neither a truthy
`apikey` nor a truthy `pin` it fails with the generic `AttributeError`
(no request issued); whenever a client exists it issues exactly the POST
with body `{"name": AUTH_APIKEY_NAME, "scopes": ["admin"]}`; and whenever
the call succeeds, the returned key has been stored in the session's
`apikey` field. -/
theorem create_api_key_behavior (r : Remote) (resp : Response) :
    (truthy r.apikey = false → truthy r.pin = false →
      r.create_api_key resp = ([], .error .attributeError)
        ∧ isAuthenticationErrorExc .attributeError = false)
  ∧ (r.client.isSome →
      (r.create_api_key resp).1
        = [⟨.post, r.url "auth/api_keys",
            some (.obj [("name", .str AUTH_APIKEY_NAME),
                        ("scopes", .arr [.str "admin"])])⟩])
  ∧ (∀ reqs r' k, r.create_api_key resp = (reqs, .ok (r', k)) →
      r'.apikey = some k) := by
  refine ⟨?_, ?_, ?_⟩
  · intro h1 h2
    have hcl : r.client = none := by simp [Remote.client, h1, h2]
    exact ⟨by simp [Remote.create_api_key, Remote.withClient, hcl], rfl⟩
  · intro hs
    obtain ⟨s, hcl⟩ := Option.isSome_iff_exists.mp hs
    simp [Remote.create_api_key, Remote.withClient, hcl]
  · intro reqs r' k h
    unfold Remote.create_api_key Remote.withClient at h
    rcases hcl : r.client with _ | s <;> rw [hcl] at h
    · simp at h
    · dsimp only at h
      have h2 := congrArg Prod.snd h
      dsimp only at h2
      split at h2
      · simp at h2
      · split at h2
        · simp at h2
        · next k0 =>
          injection h2 with h3
          injection h3 with h4 h5
          subst h4; subst h5
          rfl
        · simp at h2

/-- Closed witness for `create_api_key_behavior`: the credential-less case
and the key-storing case at concrete inputs. -/
theorem create_api_key_behavior_witness :
    (Remote.create_api_key ⟨"http://host/api/", none, none, [], []⟩ ⟨200, .null⟩
      = ([], .error .attributeError))
  ∧ (Remote.mk "http://host/api/" (some "NEWKEY") (some "1234") [] []).apikey
      = some "NEWKEY" :=
  ⟨((create_api_key_behavior ⟨"http://host/api/", none, none, [], []⟩
      ⟨200, .null⟩).1 rfl rfl).1,
   (create_api_key_behavior ⟨"http://host/api/", none, some "1234", [], []⟩
      ⟨200, .obj [("api_key", .str "NEWKEY")]⟩).2.2
     [⟨.post, "http://host/api/auth/api_keys",
        some (.obj [("name", .str AUTH_APIKEY_NAME),
                    ("scopes", .arr [.str "admin"])])⟩]
     (Remote.mk "http://host/api/" (some "NEWKEY") (some "1234") [] [])
     "NEWKEY" rfl⟩

/-- Python truthiness of an optional string, unfolded. -/
theorem truthy_iff (o : Option String) :
    truthy o = true ↔ ∃ s, o = some s ∧ s ≠ "" := by
  cases o <;> simp [truthy]

/-- C9: exactly one of {token, pin} is the active credential, token
preferred: `client()` configures Bearer auth iff `apikey` is truthy, and
PIN basic auth iff `apikey` is not truthy and `pin` is truthy; a
successful `create_api_key` stores the new token (leaving `pin` in
place), so a non-empty new token becomes the active credential. -/
theorem credential_invariant (r : Remote) (resp : Response) :
    ((∃ k, r.apikey = some k ∧ r.client = some ⟨.bearer k, 5⟩)
        ↔ truthy r.apikey = true)
  ∧ ((∃ p, r.pin = some p ∧ r.client = some ⟨.basic AUTH_USERNAME p, 2⟩)
        ↔ (truthy r.apikey = false ∧ truthy r.pin = true))
  ∧ (∀ reqs r' k, r.create_api_key resp = (reqs, .ok (r', k)) →
      r'.apikey = some k ∧ r'.pin = r.pin ∧
        (k ≠ "" → r'.client = some ⟨.bearer k, 5⟩)) := by
  refine ⟨?_, ?_, ?_⟩
  · constructor
    · rintro ⟨k, hk, hcl⟩
      by_cases ha : truthy r.apikey = true
      · exact ha
      · exfalso
        rw [Remote.client, if_neg (by simp [ha])] at hcl
        split at hcl
        · simp at hcl
        · simp at hcl
    · intro ha
      obtain ⟨k, hk, hne⟩ := (truthy_iff _).mp ha
      refine ⟨k, hk, ?_⟩
      rw [Remote.client, if_pos ha, hk]
      rfl
  · constructor
    · rintro ⟨p, hp, hcl⟩
      by_cases ha : truthy r.apikey = true
      · exfalso
        rw [Remote.client, if_pos ha] at hcl
        simp at hcl
      · refine ⟨by simpa using ha, ?_⟩
        by_cases hpin : truthy r.pin = true
        · exact hpin
        · exfalso
          rw [Remote.client, if_neg (by simp [ha]), if_neg (by simp [hpin])] at hcl
          simp at hcl
    · rintro ⟨ha, hp⟩
      obtain ⟨p, hpe, hne⟩ := (truthy_iff _).mp hp
      refine ⟨p, hpe, ?_⟩
      rw [Remote.client, if_neg (by simp [ha]), if_pos hp, hpe]
      rfl
  · intro reqs r' k h
    unfold Remote.create_api_key Remote.withClient at h
    rcases hcl : r.client with _ | s <;> rw [hcl] at h
    · simp at h
    · dsimp only at h
      have h2 := congrArg Prod.snd h
      dsimp only at h2
      split at h2
      · simp at h2
      · split at h2
        · simp at h2
        · next k0 =>
          injection h2 with h3
          injection h3 with h4 h5
          subst h4; subst h5
          refine ⟨rfl, rfl, fun hk => ?_⟩
          rw [Remote.client]
          rw [if_pos (by simp [truthy, hk])]
          rfl
        · simp at h2

/-- Closed witness for `credential_invariant`: on a session holding both a
token and a PIN, the client is the Bearer client for that token. -/
theorem credential_invariant_witness :
    ∃ k, (Remote.mk "http://host/api/" (some "KEY") (some "1234") [] []).apikey
        = some k
      ∧ (Remote.mk "http://host/api/" (some "KEY") (some "1234") [] []).client
        = some ⟨.bearer k, 5⟩ :=
  ((credential_invariant ⟨"http://host/api/", some "KEY", some "1234", [], []⟩
      ⟨200, .null⟩).1).mpr rfl

/-- C3 counterexample: with no docks known and no `dock` keyword supplied
(and a valid `device`+`command` pair), `send_remote_command` fails with
the generic `IndexError` from `self._docks[0]`, not with
`NoEmitterFound`. -/
theorem send_remote_command_empty_docks_counterexample :
    Remote.send_remote_command
      ⟨"http://host/api/", some "KEY", none, [], [⟨some "TV", some "cs1"⟩]⟩
      "TV" "power" 0 ⟨none, none, none, none⟩ ⟨200, .num 200⟩
      = ([], .error .indexError)
  ∧ raises (Remote.send_remote_command
      ⟨"http://host/api/", some "KEY", none, [], [⟨some "TV", some "cs1"⟩]⟩
      "TV" "power" 0 ⟨none, none, none, none⟩ ⟨200, .num 200⟩)
      isNoEmitterFoundExc = false := ⟨rfl, rfl⟩

/-- C3 (amended): in `send_remote_command` (with a valid `device`+`command`
pair resolving to a codeset, so that body construction succeeds first):
a `dock` keyword matching no known dock name fails with `NoEmitterFound`;
with no `dock` keyword and no known docks the call fails with the generic
`IndexError` from `self._docks[0]` (not `NoEmitterFound`); with no `dock`
keyword, at least one known dock, and a client available, the first
dock's `device_id` is used as the emitter for the PUT. -/
theorem send_remote_command_emitter_resolution (r : Remote)
    (device command : String) (rep : Nat) (kw : IrKwargs) (resp : Response)
    (cs : CodesetEntry) (hd : device ≠ "") (hc : command ≠ "")
    (hcs : r._ir_codesets.find? (fun c => c.name == some device) = some cs) :
    (∀ dn, kw.dock = some dn →
      r._docks.find? (fun d => d.name == some dn) = none →
      r.send_remote_command device command rep kw resp
        = ([], .error (.noEmitterFound
            "No emitter could be found with the supplied criteria")))
  ∧ (kw.dock = none → r._docks = [] →
      r.send_remote_command device command rep kw resp
        = ([], .error .indexError))
  ∧ (∀ d0 ds emitter, kw.dock = none → r._docks = d0 :: ds →
      d0.device_id = some emitter → r.client.isSome →
      ∃ body, (r.send_remote_command device command rep kw resp).1
        = [⟨.put, r.url ("ir/emitters/" ++ emitter ++ "/send"),
            some (.obj body)⟩]) := by
  have hdc : (device != "" && command != "") = true := by
    simp [hd, hc]
  refine ⟨?_, ?_, ?_⟩
  · intro dn hdn hfind
    simp [Remote.send_remote_command, hdc, hcs, hdn, hfind]
  · intro hdn hdocks
    simp [Remote.send_remote_command, hdc, hcs, hdn, hdocks]
  · intro d0 ds emitter hdn hdocks hdid hs
    obtain ⟨s, hcl⟩ := Option.isSome_iff_exists.mp hs
    refine ⟨mergeFields
      (mergeFields [("codeset_id", jsonOfOptStr cs.device_id),
        ("cmd_id", Json.str command)]
        (if 0 < rep then [("repeat", Json.num rep)] else []))
      (match kw.port with
       | some p => [("port_id", Json.str p)]
       | none => []), ?_⟩
    simp [Remote.send_remote_command, hdc, hcs, hdn, hdocks, hdid, hcl]

/-- Closed witness for `send_remote_command_emitter_resolution`: a `dock`
name absent from the known docks yields `NoEmitterFound`. -/
theorem send_remote_command_emitter_resolution_witness :
    Remote.send_remote_command
      ⟨"http://host/api/", some "KEY", none, [⟨some "Dock", some "dock1"⟩],
        [⟨some "TV", some "cs1"⟩]⟩
      "TV" "power" 0 ⟨none, none, some "Missing", none⟩ ⟨200, .num 200⟩
      = ([], .error (.noEmitterFound
          "No emitter could be found with the supplied criteria")) :=
  (send_remote_command_emitter_resolution
      ⟨"http://host/api/", some "KEY", none, [⟨some "Dock", some "dock1"⟩],
        [⟨some "TV", some "cs1"⟩]⟩
      "TV" "power" 0
      ⟨none, none, some "Missing", none⟩ ⟨200, .num 200⟩ ⟨some "TV", some "cs1"⟩
      (by decide) (by decide) rfl).1 "Missing" rfl rfl

/-- The `for ... else` search of `revoke_api_key` returns `none` when no
key's `"name"` equals `key_name`. -/
theorem findApiKeyId_none (keys : List Json) (key_name : String)
    (h : ∀ k ∈ keys, ∃ v, k.index "name" = .ok v ∧ v.eqStr key_name = false) :
    findApiKeyId keys key_name = .ok none := by
  induction keys with
  | nil => rfl
  | cons k rest ih =>
    obtain ⟨v, hv, hne⟩ := h k (List.mem_cons_self k rest)
    simp [findApiKeyId, hv, hne,
      ih (fun k' hk' => h k' (List.mem_cons_of_mem _ hk'))]

/-- C6: `revoke_api_key` matches the fetched key list by exact name
equality: when no entry's `"name"` equals `key_name`, it raises
`ApiKeyNotFound` carrying the queried `key_name` and issues no DELETE
(the trace is the single GET); when the first entry's name equals
`key_name`, the DELETE goes to that entry's `key_id`. -/
theorem revoke_api_key_spec (r : Remote) (key_name : String) (keys : List Json)
    (listResp deleteResp : Response) (hs : r.client.isSome)
    (hok : listResp.status < 400) (hbody : listResp.body = .arr keys) :
    ((∀ k ∈ keys, ∃ v, k.index "name" = .ok v ∧ v.eqStr key_name = false) →
      r.revoke_api_key key_name listResp deleteResp
        = ([⟨.get, r.url "auth/api_keys", none⟩],
           .error (.apiKeyNotFound key_name
             ("API Key '" ++ key_name ++ "' not found."))))
  ∧ (∀ k0 rest kid, keys = k0 :: rest →
      k0.index "name" = .ok (.str key_name) →
      k0.index "key_id" = .ok (.str kid) →
      deleteResp.status < 400 →
      r.revoke_api_key key_name listResp deleteResp
        = ([⟨.get, r.url "auth/api_keys", none⟩,
            ⟨.delete, r.url ("auth/api_keys/" ++ kid), none⟩], .ok ())) := by
  obtain ⟨s, hcl⟩ := Option.isSome_iff_exists.mp hs
  have hro : raise_on_error listResp = .ok listResp := by
    simp [raise_on_error, Response.ok, hok]
  constructor
  · intro habs
    have hfind := findApiKeyId_none keys key_name habs
    simp [Remote.revoke_api_key, Remote.get_api_keys, Remote.withClient,
          hcl, hro, hbody, hfind]
  · intro k0 rest kid hkeys hname hkid hdok
    have hro2 : raise_on_error deleteResp = .ok deleteResp := by
      simp [raise_on_error, Response.ok, hdok]
    simp [Remote.revoke_api_key, Remote.get_api_keys, Remote.withClient,
          hcl, hro, hbody, hkeys, findApiKeyId, hname, hkid, Json.eqStr, hro2]

/-- Closed witness for `revoke_api_key_spec`: revoking `"missing"` against
a key list holding only `"other"` raises `ApiKeyNotFound("missing")` with
no DELETE issued. -/
theorem revoke_api_key_spec_witness :
    Remote.revoke_api_key ⟨"http://host/api/", some "KEY", none, [], []⟩
      "missing"
      ⟨200, .arr [.obj [("name", .str "other"), ("key_id", .str "id1")]]⟩
      ⟨200, .null⟩
      = ([⟨.get, "http://host/api/auth/api_keys", none⟩],
         .error (.apiKeyNotFound "missing" "API Key 'missing' not found.")) :=
  (revoke_api_key_spec ⟨"http://host/api/", some "KEY", none, [], []⟩ "missing"
      [.obj [("name", .str "other"), ("key_id", .str "id1")]]
      ⟨200, .arr [.obj [("name", .str "other"), ("key_id", .str "id1")]]⟩
      ⟨200, .null⟩ rfl (by decide) rfl).1
    (by
      intro k hk
      simp only [List.mem_singleton] at hk
      subst hk
      exact ⟨.str "other", rfl, rfl⟩)

/-- The `get_activity_state` loop returns Python `None` when no entry's
`"entity_id"` equals the queried id. -/
theorem findActivityState_missing (items : List Json) (eid : String)
    (h : ∀ e ∈ items, ∃ v, e.index "entity_id" = .ok v ∧ v.eqStr eid = false) :
    findActivityState items eid = .ok .null := by
  induction items with
  | nil => rfl
  | cons a rest ih =>
    obtain ⟨v, hv, hne⟩ := h a (List.mem_cons_self a rest)
    simp [findActivityState, hv, hne,
      ih (fun e he => h e (List.mem_cons_of_mem _ he))]

/-- The `get_activity_state` loop returns the `"state"` attribute of the
first entry whose `"entity_id"` equals the queried id, skipping earlier
non-matching entries. -/
theorem findActivityState_first_match (pre : List Json) (e : Json)
    (post : List Json) (eid : String) (st : Json)
    (hpre : ∀ x ∈ pre, ∃ v, x.index "entity_id" = .ok v
        ∧ v.eqStr eid = false)
    (hid : e.index "entity_id" = .ok (.str eid))
    (hattrs : ∃ attrs, e.index "attributes" = .ok attrs
        ∧ attrs.index "state" = .ok st) :
    findActivityState (pre ++ e :: post) eid = .ok st := by
  induction pre with
  | nil =>
    obtain ⟨attrs, ha, hst⟩ := hattrs
    simp [findActivityState, hid, Json.eqStr, ha, hst]
  | cons x rest ih =>
    obtain ⟨v, hv, hne⟩ := hpre x (List.mem_cons_self x rest)
    simp [findActivityState, hv, hne,
      ih (fun y hy => hpre y (List.mem_cons_of_mem _ hy))]

/-- C8: `Activity.update` re-fetches the activities list and overwrites
the local state with the `"attributes"."state"` of the first entry whose
`"entity_id"` exactly equals this activity's id; when no (well-formed)
entry carries this id, the call does not throw: `get_activity_state`
returns `None`, the local state becomes `None`, and `is_on` is `false`. -/
theorem activity_update_refresh (a : Activity) (r : Remote)
    (resp : Response) (items : List Json) (hs : r.client.isSome)
    (hok : resp.status < 400) (hbody : resp.body = .arr items) :
    (∀ pre e post st, items = pre ++ e :: post →
      (∀ x ∈ pre, ∃ v, x.index "entity_id" = .ok v
          ∧ v.eqStr a._id = false) →
      e.index "entity_id" = .ok (.str a._id) →
      (∃ attrs, e.index "attributes" = .ok attrs
          ∧ attrs.index "state" = .ok st) →
      a.update r resp
        = ([⟨.get, r.url "activities", none⟩], .ok { a with _state := st }))
  ∧ ((∀ e ∈ items, ∃ v, e.index "entity_id" = .ok v
        ∧ v.eqStr a._id = false) →
      (r.get_activity_state a._id resp).2 = .ok .null
      ∧ ∃ a', a.update r resp = ([⟨.get, r.url "activities", none⟩], .ok a')
          ∧ a'._state = .null ∧ a'.is_on = false) := by
  obtain ⟨s, hcl⟩ := Option.isSome_iff_exists.mp hs
  have hro : raise_on_error resp = .ok resp := by
    simp [raise_on_error, Response.ok, hok]
  constructor
  · intro pre e post st hitems hpre hid hattrs
    have hfs := findActivityState_first_match pre e post a._id st hpre hid hattrs
    have hgs : r.get_activity_state a._id resp
        = ([⟨.get, r.url "activities", none⟩], .ok st) := by
      simp [Remote.get_activity_state, Remote.withClient, hcl, hro, hbody,
            hitems, hfs]
    simp [Activity.update, hgs]
  · intro habs
    have hfs := findActivityState_missing items a._id habs
    have hgs : r.get_activity_state a._id resp
        = ([⟨.get, r.url "activities", none⟩], .ok .null) := by
      simp [Remote.get_activity_state, Remote.withClient, hcl, hro, hbody, hfs]
    refine ⟨by rw [hgs], ⟨{ a with _state := .null }, ?_, rfl, rfl⟩⟩
    simp [Activity.update, hgs]

/-- Closed witness for `activity_update_refresh`: refreshing an activity
whose id is present in the fetched list (after one non-matching entry)
overwrites its state with that entry's state, and refreshing one whose id
is gone leaves state `None` and `is_on` false, without raising. -/
theorem activity_update_refresh_witness :
    (Activity.update ⟨"Watch TV", "act1", .null⟩
        ⟨"http://host/api/", some "KEY", none, [], []⟩
        ⟨200, .arr [.obj [("entity_id", .str "act0"),
            ("attributes", .obj [("state", .str "OFF")])],
          .obj [("entity_id", .str "act1"),
            ("attributes", .obj [("state", .str "ON")])]]⟩
      = ([⟨.get, "http://host/api/activities", none⟩],
         .ok ⟨"Watch TV", "act1", .str "ON"⟩))
  ∧ ∃ a', Activity.update ⟨"Watch TV", "gone", .str "ON"⟩
        ⟨"http://host/api/", some "KEY", none, [], []⟩
        ⟨200, .arr [.obj [("entity_id", .str "act2"),
          ("attributes", .obj [("state", .str "ON")])]]⟩
      = ([⟨.get, "http://host/api/activities", none⟩], .ok a')
      ∧ a'._state = .null ∧ a'.is_on = false :=
  ⟨(activity_update_refresh ⟨"Watch TV", "act1", .null⟩
      ⟨"http://host/api/", some "KEY", none, [], []⟩
      ⟨200, .arr [.obj [("entity_id", .str "act0"),
          ("attributes", .obj [("state", .str "OFF")])],
        .obj [("entity_id", .str "act1"),
          ("attributes", .obj [("state", .str "ON")])]]⟩
      [.obj [("entity_id", .str "act0"),
          ("attributes", .obj [("state", .str "OFF")])],
        .obj [("entity_id", .str "act1"),
          ("attributes", .obj [("state", .str "ON")])]]
      rfl (by decide) rfl).1
      [.obj [("entity_id", .str "act0"),
        ("attributes", .obj [("state", .str "OFF")])]]
      (.obj [("entity_id", .str "act1"),
        ("attributes", .obj [("state", .str "ON")])])
      [] (.str "ON") rfl
      (by
        intro x hx
        simp only [List.mem_singleton] at hx
        subst hx
        exact ⟨.str "act0", rfl, rfl⟩)
      rfl
      ⟨.obj [("state", .str "ON")], rfl, rfl⟩,
   (activity_update_refresh ⟨"Watch TV", "gone", .str "ON"⟩
      ⟨"http://host/api/", some "KEY", none, [], []⟩
      ⟨200, .arr [.obj [("entity_id", .str "act2"),
        ("attributes", .obj [("state", .str "ON")])]]⟩
      [.obj [("entity_id", .str "act2"),
        ("attributes", .obj [("state", .str "ON")])]]
      rfl (by decide) rfl).2
      (by
        intro e he
        simp only [List.mem_singleton] at he
        subst he
        exact ⟨.str "act2", rfl, rfl⟩) |>.2⟩

/-- The remainder returned by the scheme split is a sublist of the input. -/
theorem splitScheme_snd_sublist (url : List Char) :
    (splitScheme url).2.Sublist url := by
  unfold splitScheme
  dsimp only
  split
  · exact List.drop_sublist _ _
  · exact List.Sublist.refl url

/-- `urlsplit` can only fail through the unbalanced-bracket check or the
`_checknetloc` NFKC check on the netloc, so it succeeds on every
all-ASCII input containing neither bracket. -/
theorem urlsplit_ok_of_ascii_no_brackets (url : List Char)
    (h1 : '[' ∉ url) (h2 : ']' ∉ url) (h3 : ∀ c ∈ url, c.toNat < 128) :
    ∃ p, urlsplit url = .ok p := by
  have hnet : ∀ c ∈ (((splitScheme
        (url.filter fun c => c != '\t' && c != '\r' && c != '\n')).2.drop 2).takeWhile
        fun c => c != '/' && c != '?' && c != '#'), c ∈ url := by
    intro c hc
    exact (List.filter_sublist url).subset
      ((splitScheme_snd_sublist _).subset
        ((List.drop_sublist _ _).subset
          ((List.takeWhile_sublist _).subset hc)))
  have hcn : checknetloc (((splitScheme
        (url.filter fun c => c != '\t' && c != '\r' && c != '\n')).2.drop 2).takeWhile
        fun c => c != '/' && c != '?' && c != '#') = .ok () := by
    have hall : (((splitScheme
        (url.filter fun c => c != '\t' && c != '\r' && c != '\n')).2.drop 2).takeWhile
        fun c => c != '/' && c != '?' && c != '#').all
          (fun c => decide (c.toNat < 128)) = true := by
      rw [List.all_eq_true]
      intro c hc
      exact decide_eq_true (h3 c (hnet c hc))
    simp [checknetloc, hall]
  unfold urlsplit
  dsimp only
  split
  · rw [if_neg]
    · rw [hcn]
      exact ⟨_, rfl⟩
    · rintro (⟨hm, -⟩ | ⟨hm, -⟩)
      · exact h1 (hnet _ hm)
      · exact h2 (hnet _ hm)
  · exact ⟨_, rfl⟩

/-- C4 counterexample: `validate_url` can fail: on input `"["` the
underlying `urlparse` raises `ValueError("Invalid IPv6 URL")`, refuting
"never fails on any input string". -/
theorem validate_url_bracket_counterexample :
    validate_url "[" = .error (.valueError "Invalid IPv6 URL") := rfl

/-- C4 (amended): `validate_url` never fails on any all-ASCII input
string containing neither `'['` nor `']'` — it can fail: an unbalanced
bracket in the derived authority makes the URL parser raise
`ValueError("Invalid IPv6 URL")` (e.g. input `"["`), and some non-ASCII
authorities make `_checknetloc` raise `ValueError` under NFKC
normalization (e.g. input `"℀"`, whose NFKC form is `"a/c"`) — and for
each of
`"host"`, `"host/"`, `"host/api"`, `"http://host:8080"` it returns
`"http://host/api/"`, `"http://host/api/"`, `"http://host/api/"` and
`"http://host:8080/api/"` respectively — each beginning with a scheme and
ending in exactly one trailing-slash `api/` segment with no duplicated
slashes. -/
theorem validate_url_normalization (uri : String)
    (h1 : '[' ∉ uri.data) (h2 : ']' ∉ uri.data)
    (h3 : ∀ c ∈ uri.data, c.toNat < 128) :
    (∃ out, validate_url uri = .ok out)
  ∧ validate_url "host" = .ok "http://host/api/"
  ∧ validate_url "host/" = .ok "http://host/api/"
  ∧ validate_url "host/api" = .ok "http://host/api/"
  ∧ validate_url "http://host:8080" = .ok "http://host:8080/api/" := by
  refine ⟨?_, rfl, rfl, rfl, rfl⟩
  have hb1 : '[' ∉ (if "http".data.isPrefixOf uri.data then uri.data
      else "http://".data ++ uri.data) := by
    split
    · exact h1
    · intro hmem
      rcases List.mem_append.mp hmem with h | h
      · revert h; decide
      · exact h1 h
  have hb2 : ']' ∉ (if "http".data.isPrefixOf uri.data then uri.data
      else "http://".data ++ uri.data) := by
    split
    · exact h2
    · intro hmem
      rcases List.mem_append.mp hmem with h | h
      · revert h; decide
      · exact h2 h
  have hb3 : ∀ c ∈ (if "http".data.isPrefixOf uri.data then uri.data
      else "http://".data ++ uri.data), c.toNat < 128 := by
    split
    · exact h3
    · intro c hmem
      rcases List.mem_append.mp hmem with h | h
      · have hpre : ∀ x ∈ "http://".data, x.toNat < 128 := by decide
        exact hpre c h
      · exact h3 c h
  obtain ⟨p, hp⟩ := urlsplit_ok_of_ascii_no_brackets _ hb1 hb2 hb3
  unfold validate_url
  dsimp only
  rw [hp]
  dsimp only
  split
  · exact ⟨_, rfl⟩
  · split
    · exact ⟨_, rfl⟩
    · split
      · exact ⟨_, rfl⟩
      · exact ⟨_, rfl⟩

/-- Closed witness for `validate_url_normalization` at the bracket-free
all-ASCII input `"host"`. -/
theorem validate_url_normalization_witness :
    validate_url "host" = .ok "http://host/api/" :=
  (validate_url_normalization "host" (by decide) (by decide) (by decide)).2.1

/-- Closed witness for `no_credential_client_none`: a session constructed
with `pin=None, apikey=None`, including the IR-send path. -/
theorem no_credential_client_none_witness :
    Remote.client ⟨"http://host/api/", none, none, [], []⟩ = none
  ∧ Remote.can_connect ⟨"http://host/api/", none, none, [], []⟩ ⟨200, .null⟩
      = ([], .error .attributeError)
  ∧ Remote.send_remote_command ⟨"http://host/api/", none, none,
        [⟨some "Dock", some "dock1"⟩], [⟨some "TV", some "cs1"⟩]⟩
      "TV" "power" 0 ⟨none, none, none, none⟩ ⟨200, .num 200⟩
      = ([], .error .attributeError) :=
  ⟨(no_credential_client_none ⟨"http://host/api/", none, none, [], []⟩
      ⟨200, .null⟩ rfl rfl).1,
   (no_credential_client_none ⟨"http://host/api/", none, none, [], []⟩
      ⟨200, .null⟩ rfl rfl).2.1,
   (no_credential_client_none ⟨"http://host/api/", none, none,
        [⟨some "Dock", some "dock1"⟩], [⟨some "TV", some "cs1"⟩]⟩
      ⟨200, .num 200⟩ rfl rfl).2.2.2.2.2.2.2.1
     "TV" "power" 0 ⟨none, none, none, none⟩ ⟨some "TV", some "cs1"⟩
     ⟨some "Dock", some "dock1"⟩ [] "dock1"
     (by decide) (by decide) rfl rfl rfl rfl⟩

end PyUC
